import Mathlib

/-!
Shallow embedding of the `fermax_duoxme` Home Assistant integration
(custom_components/fermax_duoxme): the API data models, the OAuth token
store, the API client's request dispatch, and the polling coordinator's
failure-tolerance policy, together with theorems settling the spec claims.

Python machine model used throughout: exceptions become `Except`,
`None`-able values become `Option`, dicts preserving insertion order become
association lists, and `datetime` values become microsecond counts (`Int`),
which is faithful for the arithmetic (`timedelta`) and ordering operations
the code performs.
-/

namespace Fermax

/-! ## Constants (const.py) -/

def MAX_CONSECUTIVE_FAILURES : Nat := 3

def DEFAULT_POLLING_INTERVAL : Nat := 30

def ACCESS_TOKEN_DEFAULT_LIFETIME : Int := 345599

/-! ## Data models (api/models.py) -/

/-- `DoorId` (models.py): door identifier `{block, subblock, number}`. -/
structure DoorId where
  block : Int
  subblock : Int
  number : Int
deriving DecidableEq, Repr

/-- `DoorId.to_dict` (models.py): identity on the three fields. -/
def DoorId.to_dict (d : DoorId) : Int × Int × Int :=
  (d.block, d.subblock, d.number)

/-- `AccessDoor` (models.py): a door that can be opened. -/
structure AccessDoor where
  door_id : DoorId
  title : String
  visible : Bool
  door_type : String
deriving DecidableEq, Repr

/-- `Pairing` (models.py): a device pairing, all dataclass fields. -/
structure Pairing where
  id : String
  device_id : String
  user_id : String
  user_email : String
  tag : String
  installation_id : String
  address : String
  status : String
  is_master : Bool
  enabled : Bool
  pairing_type : String
  access_doors : List AccessDoor
  panel_access_doors : List AccessDoor
deriving DecidableEq, Repr

/-- `Pairing.all_visible_doors` (models.py:122-127): visible doors from
`access_doors` then visible doors from `panel_access_doors`. -/
def Pairing.all_visible_doors (p : Pairing) : List AccessDoor :=
  (p.access_doors.filter (fun d => d.visible)) ++
    (p.panel_access_doors.filter (fun d => d.visible))

/-- `DeviceInfo` (models.py): device information fields. -/
structure DeviceInfo where
  device_id : String
  connection_state : String
  status : String
  installation_id : String
  family : String
  device_type : String
  subtype : String
  unit_number : Int
  connectable : Bool
  photocaller : Bool
  wireless_signal : Int
  is_monitor : Bool
  streaming_mode : String
deriving DecidableEq, Repr

/-- `DeviceInfo.is_connected` (models.py): `connection_state.lower() == "connected"`. -/
def DeviceInfo.is_connected (d : DeviceInfo) : Bool :=
  d.connection_state.toLower == "connected"

/-! ## Coordinator data (coordinator.py) -/

/-- `DeviceData` (coordinator.py:25-52): data for a single device. -/
structure DeviceData where
  pairing : Pairing
  device_info : Option DeviceInfo := none
  services : List String := []
deriving DecidableEq, Repr

/-- `DeviceData.is_connected` (coordinator.py:33-38). -/
def DeviceData.is_connected (d : DeviceData) : Bool :=
  match d.device_info with
  | some info => info.is_connected
  | none => false

/-- `DeviceData.wireless_signal` (coordinator.py:40-45): the device info's
signal, or 0 when no device info is present. -/
def DeviceData.wireless_signal (d : DeviceData) : Int :=
  match d.device_info with
  | some info => info.wireless_signal
  | none => 0

/-- `FermaxData` (coordinator.py:55-63): mapping from device id to
`DeviceData`, modelled as an insertion-ordered association list. -/
structure FermaxData where
  devices : List (String × DeviceData) := []
deriving DecidableEq, Repr

/-- `FermaxData.get_device` (coordinator.py:61-63): `devices.get(device_id)`. -/
def FermaxData.get_device (d : FermaxData) (device_id : String) : Option DeviceData :=
  (d.devices.find? (fun kv => kv.1 == device_id)).map (·.2)

/-! ## Coordinator refresh cycle (coordinator.py:104-189)

The coordinator's mutable state is `_consecutive_failures` and
`_last_data`.  One invocation of `_async_update_data` either runs the
fetch body to completion (get_pairings plus the per-device
get_device/get_services loop) or is aborted by an exception; we model the
fetch as an oracle: either the list of pairings arrived together with
per-device lookups, or some call raised `FermaxAuthError`, or some call
raised any other exception. -/

structure CoordState where
  consecutive_failures : Nat
  last_data : Option FermaxData
deriving DecidableEq, Repr

/-- Result of the network fetch attempted by one refresh cycle:
either every awaited call succeeded (giving the pairing list and the
per-device responses), or one of them raised. -/
inductive FetchOutcome where
  /-- All API calls succeeded. `getDevice`/`getServices` give the
  responses of `client.get_device` / `client.get_services`. -/
  | fetched (pairings : List Pairing)
      (getDevice : String → Option DeviceInfo)
      (getServices : String → List String)
  /-- Some call raised `FermaxAuthError` with message `msg`. -/
  | authError (msg : String)
  /-- Some call raised a non-auth exception with message `msg`. -/
  | otherError (msg : String)

/-- The per-pairing loop of `_async_update_data` (coordinator.py:130-146):
skip disabled pairings; for each enabled pairing record its device info
and services under its device id. -/
def buildDevices (pairings : List Pairing)
    (getDevice : String → Option DeviceInfo)
    (getServices : String → List String) : List (String × DeviceData) :=
  match pairings with
  | [] => []
  | p :: rest =>
      if p.enabled then
        (p.device_id,
          { pairing := p
            device_info := getDevice p.device_id
            services := getServices p.device_id }) ::
          buildDevices rest getDevice getServices
      else
        buildDevices rest getDevice getServices

/-- `FermaxDataUpdateCoordinator._async_update_data`
(coordinator.py:104-189): given the prior coordinator state and the fetch
outcome, produce the next state and either the returned `FermaxData` or a
raised `UpdateFailed` (carried as its message string). -/
def asyncUpdateData (s : CoordState) (o : FetchOutcome) :
    CoordState × Except String FermaxData :=
  match o with
  | .fetched pairings getDevice getServices =>
      if pairings.isEmpty then
        -- "No pairings found": reset failure counter, store empty data
        let data : FermaxData := {}
        ({ consecutive_failures := 0, last_data := some data }, .ok data)
      else
        let data : FermaxData :=
          { devices := buildDevices pairings getDevice getServices }
        ({ consecutive_failures := 0, last_data := some data }, .ok data)
  | .authError msg =>
      -- Auth errors fail immediately - no tolerance
      ({ s with consecutive_failures := MAX_CONSECUTIVE_FAILURES },
        .error ("Authentication error: " ++ msg))
  | .otherError msg =>
      let failures := s.consecutive_failures + 1
      let s' := { s with consecutive_failures := failures }
      if failures ≥ MAX_CONSECUTIVE_FAILURES then
        (s', .error ("Error communicating with API: " ++ msg))
      else
        match s.last_data with
        | some last => (s', .ok last)
        | none => (s', .error ("Error communicating with API: " ++ msg))

/-! ## Token store (api/auth.py)

`datetime` values are modelled as microsecond counts (`Int`); a Python
`timedelta(seconds=s)` is `s * 1000000` microseconds.  Python's
`datetime.isoformat` / `datetime.fromisoformat` pair serializes a datetime
to a string and parses it back to exactly the same value (microsecond
precision, no loss); we model that external pair concretely as a decimal
rendering of the microsecond count together with its verified parser, so
that the round-trip property is proved rather than assumed.  Strings in
this serialization layer are modelled as `List Char`. -/

abbrev Datetime := Int

def MICROS_PER_SECOND : Int := 1000000

/-- The digit character for `n % 10`. -/
def digitChar (n : Nat) : Char :=
  match n % 10 with
  | 0 => '0' | 1 => '1' | 2 => '2' | 3 => '3' | 4 => '4'
  | 5 => '5' | 6 => '6' | 7 => '7' | 8 => '8' | _ => '9'

/-- Decimal digits of `n`, least significant first (empty for 0). -/
def natDigitsRev (n : Nat) : List Char :=
  if h : n = 0 then []
  else digitChar (n % 10) :: natDigitsRev (n / 10)
decreasing_by exact Nat.div_lt_self (Nat.pos_of_ne_zero h) (by norm_num)

/-- Decimal rendering of a natural number (the model of Python `str(n)`). -/
def natToChars (n : Nat) : List Char :=
  if n = 0 then ['0'] else (natDigitsRev n).reverse

/-- Numeric value of a digit character. -/
def digitVal (c : Char) : Nat := c.toNat - 48

/-- Parse a nonempty all-digit character list as a natural number
(the model of Python `int(s)` on canonical output). -/
def parseNatDigits (l : List Char) : Option Nat :=
  if l ≠ [] ∧ l.all Char.isDigit then
    some (l.foldl (fun acc c => acc * 10 + digitVal c) 0)
  else none

/-- Model of `datetime.isoformat`: lossless rendering of the timestamp. -/
def Datetime.isoformat (t : Datetime) : List Char :=
  if t < 0 then '-' :: natToChars t.natAbs else natToChars t.natAbs

/-- Model of `datetime.fromisoformat`: parse the rendering back; `none`
models the `ValueError` on malformed input. -/
def Datetime.fromisoformat (s : List Char) : Option Datetime :=
  match s with
  | [] => none
  | c :: rest =>
      if c = '-' then (parseNatDigits rest).map (fun n => -(n : Int))
      else (parseNatDigits (c :: rest)).map (fun n => (n : Int))

/-- `TokenData` (auth.py:29-37): OAuth2 token data. -/
structure TokenData where
  access_token : String
  refresh_token : String
  token_type : String
  expires_in : Int
  created_at : Datetime
deriving DecidableEq, Repr

/-- `TokenData.expires_at` (auth.py:50-53):
`created_at + timedelta(seconds=expires_in)`. -/
def TokenData.expires_at (t : TokenData) : Datetime :=
  t.created_at + t.expires_in * MICROS_PER_SECOND

/-- `TokenData.is_expired` (auth.py:55-60): expired five minutes before
actual expiry; `now` stands for `datetime.now()`. -/
def TokenData.is_expired (t : TokenData) (now : Datetime) : Bool :=
  let buffer : Int := 5 * 60 * MICROS_PER_SECOND
  now ≥ t.expires_at - buffer

/-- The persisted token layout (auth.py `to_dict`/`from_stored_dict`): a
JSON object whose keys may each be absent (`none`), as `dict.get`
tolerates. -/
structure StoredDict where
  access_token : Option String := none
  refresh_token : Option String := none
  token_type : Option String := none
  expires_in : Option Int := none
  created_at : Option (List Char) := none
deriving DecidableEq, Repr

/-- `TokenData.to_dict` (auth.py:62-70): all five keys present,
`created_at` serialized with `isoformat`. -/
def TokenData.to_dict (t : TokenData) : StoredDict :=
  { access_token := some t.access_token
    refresh_token := some t.refresh_token
    token_type := some t.token_type
    expires_in := some t.expires_in
    created_at := some t.created_at.isoformat }

/-- `TokenData.from_stored_dict` (auth.py:72-87): parse `created_at`,
falling back to `datetime.now()` (the `now` argument) when parsing fails;
remaining keys via `dict.get` with the source's defaults. -/
def TokenData.from_stored_dict (data : StoredDict) (now : Datetime) : TokenData :=
  let created_at_str := data.created_at.getD []
  let created_at := (Datetime.fromisoformat created_at_str).getD now
  { access_token := data.access_token.getD ""
    refresh_token := data.refresh_token.getD ""
    token_type := data.token_type.getD "Bearer"
    expires_in := data.expires_in.getD ACCESS_TOKEN_DEFAULT_LIFETIME
    created_at := created_at }

/-! ## API client (api/client.py)

The HTTP transport, the authenticator and the vendor server are external
collaborators; a `ClientEnv` oracle gives their behavior per attempt.
Python values returned by `response.json()` are modelled by `PyVal`. -/

/-- A parsed Python/JSON value. -/
inductive PyVal where
  | none
  | bool (b : Bool)
  | int (n : Int)
  | str (s : String)
  | list (items : List PyVal)
  | dict (entries : List (String × PyVal))

/-- Python `v is None` identity test. -/
def PyVal.isNone : PyVal → Bool
  | .none => true
  | _ => false

/-- One HTTP response: status, `Content-Type` header, and the values
`response.json()` / `response.text()` would produce. -/
structure HttpResponse where
  status : Nat
  content_type : String
  json_body : PyVal
  text_body : String

/-- The identity of one request: method, endpoint, query params, JSON
body — everything `_request` forwards to `session.request`. -/
structure RequestKey where
  method : String
  endpoint : String
  params : Option (List (String × String)) := none
  json_data : Option PyVal := none

/-- Errors escaping `FermaxApiClient._request`: a propagated
`FermaxAuthError` (from `ensure_valid_token`, `get_auth_header` or
`refresh_token`) or a raised `FermaxApiError` with its message. -/
inductive ReqError where
  | authError (msg : String)
  | apiError (msg : String)
deriving DecidableEq, Repr

/-- External behavior for one `_request` invocation: the authenticator's
`ensure_valid_token` / `refresh_token` outcomes (an `error` models a
raised `FermaxAuthError`) and the server's response per request and
attempt index (an `error` models a raised `aiohttp.ClientError`). -/
structure ClientEnv where
  ensure_valid_token : Nat → Except String Unit
  refresh_token : Except String Unit
  respond : RequestKey → Nat → Except String HttpResponse

/-- `FermaxApiClient._request` (client.py:61-137): ensure a valid token,
issue the call, and dispatch on status: 401 with `retry_on_auth_error`
refreshes the token and reissues the identical request once with
`retry_on_auth_error=False`; 404 returns `None`; 409 and other ≥400
statuses raise `FermaxApiError`; success returns the JSON body when the
`Content-Type` contains `application/json`, else the text body.
`attempt` indexes the physical attempt so the oracle can answer each
attempt differently. -/
def FermaxApiClient.request (env : ClientEnv) (key : RequestKey)
    (retry_on_auth_error : Bool) (attempt : Nat) : Except ReqError PyVal :=
  match env.ensure_valid_token attempt with
  | .error msg => .error (.authError msg)
  | .ok () =>
      match env.respond key attempt with
      | .error msg => .error (.apiError ("Network error: " ++ msg))
      | .ok response =>
          if h : response.status = 401 ∧ retry_on_auth_error = true then
            match env.refresh_token with
            | .error msg => .error (.authError msg)
            | .ok () => FermaxApiClient.request env key false (attempt + 1)
          else if response.status = 404 then
            .ok .none
          else if response.status = 409 then
            .error (.apiError "Resource conflict (409)")
          else if response.status ≥ 400 then
            .error (.apiError
              ("API error " ++ toString response.status ++ ": " ++ response.text_body))
          else if "application/json".toList <:+: response.content_type.toList then
            .ok response.json_body
          else
            .ok (.str response.text_body)
termination_by (if retry_on_auth_error then 1 else 0)
decreasing_by simp [h.2]

/-- `DoorId.to_dict` as the JSON body sent by `open_door`. -/
def DoorId.toPyVal (d : DoorId) : PyVal :=
  .dict [("block", .int d.block), ("subblock", .int d.subblock),
         ("number", .int d.number)]

/-- The request issued by `open_door` (client.py:228-233). -/
def openDoorKey (device_id : String) (door_id : DoorId) : RequestKey :=
  { method := "POST"
    endpoint := "/deviceaction/api/v1/device/" ++ device_id ++ "/directed-opendoor"
    params := some [("unitId", device_id)]
    json_data := some door_id.toPyVal }

/-- `FermaxApiClient.open_door` (client.py:217-238): issue the door-open
request; success returns `result is not None`; a `FermaxApiError` is
caught and degraded to `False`; auth errors propagate. -/
def FermaxApiClient.open_door (env : ClientEnv) (device_id : String)
    (door_id : DoorId) : Except ReqError Bool :=
  match FermaxApiClient.request env (openDoorKey device_id door_id) true 0 with
  | .ok result => .ok (!result.isNone)
  | .error (.apiError _) => .ok false
  | .error e => .error e

/-- The request issued by `delete_call_records` (client.py:283-290). -/
def deleteCallRecordsKey (registry_ids : List String) (fcm_token : String) :
    RequestKey :=
  { method := "DELETE"
    endpoint := "/callManager/api/v1/callregistry/participants"
    json_data := some (.dict
      [("participantIds", .list (registry_ids.map PyVal.str)),
       ("fcmToken", .str fcm_token)]) }

/-- `FermaxApiClient.delete_call_records` (client.py:268-296): success
returns `result.get("hidden", False)` when the result is a dict, else
`False`; a `FermaxApiError` is caught and degraded to `False`. -/
def FermaxApiClient.delete_call_records (env : ClientEnv)
    (registry_ids : List String) (fcm_token : String) : Except ReqError PyVal :=
  match FermaxApiClient.request env (deleteCallRecordsKey registry_ids fcm_token)
      true 0 with
  | .ok (.dict entries) =>
      .ok (((entries.find? (fun kv => kv.1 == "hidden")).map (·.2)).getD
        (.bool false))
  | .ok _ => .ok (.bool false)
  | .error (.apiError _) => .ok (.bool false)
  | .error e => .error e

/-- The request issued by `register_app_token` (client.py:401-414). -/
def registerAppTokenKey (fcm_token : String) (active : Bool)
    (device_model : String) (locale : String) : RequestKey :=
  { method := "POST"
    endpoint := "/notification/api/v1/apptoken"
    json_data := some (.dict
      [("token", .str fcm_token), ("os", .str "Android"),
       ("osVersion", .str "HomeAssistant"),
       ("appVersion", .str "3.4.1"), ("appBuild", .str "3041013"),
       ("phoneMobile", .str device_model), ("locale", .str locale),
       ("active", .bool active)]) }

/-- `FermaxApiClient.register_app_token` (client.py:382-419): success
returns `result is not None`; a `FermaxApiError` is caught and degraded
to `False`. -/
def FermaxApiClient.register_app_token (env : ClientEnv) (fcm_token : String)
    (active : Bool) (device_model : String) (locale : String) :
    Except ReqError Bool :=
  match FermaxApiClient.request env
      (registerAppTokenKey fcm_token active device_model locale) true 0 with
  | .ok result => .ok (!result.isNone)
  | .error (.apiError _) => .ok false
  | .error e => .error e

/-! ## Exception-class taxonomy of the source

The exception classes defined across auth.py and client.py with their
base-class chains, to talk about error "kinds" the way the spec does. -/

/-- Every exception class the integration defines, plus Python's root
`Exception`. -/
inductive ExceptionClass where
  | exception
  | fermaxApiError
  | fermaxAuthError
  | invalidCredentialsError
  | tokenRefreshError
deriving DecidableEq, Repr

/-- Strict ancestors (proper superclasses) of each class, per the source:
`FermaxApiError(Exception)` (client.py:30), `FermaxAuthError(Exception)`
(auth.py:90), `InvalidCredentialsError(FermaxAuthError)` (auth.py:94),
`TokenRefreshError(FermaxAuthError)` (auth.py:98). -/
def ExceptionClass.strictAncestors : ExceptionClass → List ExceptionClass
  | .exception => []
  | .fermaxApiError => [.exception]
  | .fermaxAuthError => [.exception]
  | .invalidCredentialsError => [.fermaxAuthError, .exception]
  | .tokenRefreshError => [.fermaxAuthError, .exception]

/-- The class of the exception a `ReqError` stands for (auth errors
conservatively mapped to their base class). -/
def ReqError.raisedClass : ReqError → ExceptionClass
  | .authError _ => .fermaxAuthError
  | .apiError _ => .fermaxApiError

/-- The class raised by a `_request` outcome, if it raised. -/
def raisedClassOf : Except ReqError PyVal → Option ExceptionClass
  | .error e => some e.raisedClass
  | .ok _ => Option.none

/-! ## Signal-strength sensor (sensor.py) -/

/-- `FermaxWirelessSignalSensor.native_value` (sensor.py:122-134):
`min(100, signal * 20)` for the device's wireless signal, `None` when the
coordinator has no data, the device is absent, or it has no device info
(a `FermaxData`/`DeviceData` instance is always truthy in Python, so the
`if` guards test only presence). -/
def FermaxWirelessSignalSensor.native_value (coordinatorData : Option FermaxData)
    (device_id : String) : Option Int :=
  match coordinatorData with
  | some data =>
      match data.get_device device_id with
      | some device_data =>
          match device_data.device_info with
          | some _ => some (min 100 (device_data.wireless_signal * 20))
          | none => none
      | none => none
  | none => none

/-! ## Lock platform door enumeration (lock.py)

lock.py reads `pairing.all_doors`; Python resolves attribute names
dynamically, so the lookup is modelled explicitly: `Pairing.getattr`
covers exactly the attributes the `Pairing` class defines — its thirteen
dataclass fields (models.py:74-86) and the one property
`all_visible_doors` (models.py:122-127); any other name raises
`AttributeError` (`none`).  (Method attributes such as `from_dict` are
class-level callables, irrelevant here; the class defines nothing named
`all_doors`.) -/

/-- Value of a `Pairing` data attribute. -/
inductive PairingAttr where
  | str (s : String)
  | bool (b : Bool)
  | doors (ds : List AccessDoor)
deriving DecidableEq, Repr

/-- Python attribute lookup on a `Pairing` instance. -/
def Pairing.getattr (p : Pairing) : String → Option PairingAttr
  | "id" => some (.str p.id)
  | "device_id" => some (.str p.device_id)
  | "user_id" => some (.str p.user_id)
  | "user_email" => some (.str p.user_email)
  | "tag" => some (.str p.tag)
  | "installation_id" => some (.str p.installation_id)
  | "address" => some (.str p.address)
  | "status" => some (.str p.status)
  | "is_master" => some (.bool p.is_master)
  | "enabled" => some (.bool p.enabled)
  | "pairing_type" => some (.str p.pairing_type)
  | "access_doors" => some (.doors p.access_doors)
  | "panel_access_doors" => some (.doors p.panel_access_doors)
  | "all_visible_doors" => some (.doors p.all_visible_doors)
  | _ => none

def attributeErrorAllDoors : String :=
  "AttributeError: 'Pairing' object has no attribute 'all_doors'"

/-- The unique-id scheme of lock.py:54 / lock.py:132-134. -/
def lockUniqueId (device_id : String) (door : AccessDoor) : String :=
  device_id ++ "_" ++ door.door_type ++ "_" ++ toString door.door_id.block
    ++ "_" ++ toString door.door_id.number

/-- The door-enumeration loop of `_async_update_entities` (lock.py:49-55):
for each device, iterate `pairing.all_doors` and record
`(unique_id, (device_id, door, pairing.tag))`.  An `AttributeError`
aborts the listener. -/
def lockCollectDoors :
    List (String × DeviceData) →
      Except String (List (String × String × AccessDoor × String))
  | [] => .ok []
  | (device_id, device_data) :: rest =>
      match device_data.pairing.getattr "all_doors" with
      | some (PairingAttr.doors doors) =>
          match lockCollectDoors rest with
          | .ok entries =>
              .ok ((doors.map (fun door =>
                (lockUniqueId device_id door,
                  device_id, door, device_data.pairing.tag))) ++ entries)
          | .error e => .error e
      | _ => .error attributeErrorAllDoors

/-- The door search of `FermaxLock._handle_coordinator_update`
(lock.py:190-199): scan `pairing.all_doors` for the door matching the
entity's semantic id. -/
def lockFindTargetDoor (device_data : DeviceData) (self_door : AccessDoor) :
    Except String (Option AccessDoor) :=
  match device_data.pairing.getattr "all_doors" with
  | some (PairingAttr.doors doors) =>
      .ok (doors.find? (fun door =>
        door.door_type == self_door.door_type &&
        door.door_id.block == self_door.door_id.block &&
        door.door_id.number == self_door.door_id.number))
  | _ => .error attributeErrorAllDoors

/-! ## Concrete fixtures used by witness theorems -/

def sampleDoorId : DoorId := { block := 0, subblock := -1, number := 1 }

def sampleDoor : AccessDoor :=
  { door_id := sampleDoorId, title := "Front", visible := true,
    door_type := "ZERO" }

def samplePairing : Pairing :=
  { id := "p1", device_id := "dev1", user_id := "u1",
    user_email := "u@example.com", tag := "Home", installation_id := "i1",
    address := "addr", status := "PAIRED", is_master := true,
    enabled := true, pairing_type := "WIFI", access_doors := [sampleDoor],
    panel_access_doors := [] }

def sampleDeviceInfoWith (signal : Int) : DeviceInfo :=
  { device_id := "dev1", connection_state := "CONNECTED", status := "ok",
    installation_id := "i1", family := "MONITOR", device_type := "WIFI",
    subtype := "", unit_number := 1, connectable := true,
    photocaller := false, wireless_signal := signal, is_monitor := true,
    streaming_mode := "" }

def sampleDeviceData : DeviceData :=
  { pairing := samplePairing,
    device_info := some (sampleDeviceInfoWith 4), services := ["opendoor"] }

def sampleData : FermaxData := { devices := [("dev1", sampleDeviceData)] }

def sampleDataWith (signal : Int) : FermaxData :=
  { devices := [("dev1",
      { pairing := samplePairing
        device_info := some (sampleDeviceInfoWith signal)
        services := [] })] }

def tokenA : TokenData :=
  { access_token := "acc", refresh_token := "ref", token_type := "Bearer",
    expires_in := 0, created_at := 0 }

def okResponse (status : Nat) (text : String) : HttpResponse :=
  { status := status, content_type := "text/plain", json_body := .none,
    text_body := text }

/-- Environment whose server always answers with the same response and
whose authenticator always succeeds. -/
def constEnv (resp : HttpResponse) : ClientEnv :=
  { ensure_valid_token := fun _ => .ok ()
    refresh_token := .ok ()
    respond := fun _ _ => .ok resp }

def env401 : ClientEnv := constEnv (okResponse 401 "unauthorized")

def env409 : ClientEnv := constEnv (okResponse 409 "conflict")

def env500 : ClientEnv := constEnv (okResponse 500 "boom")

def sampleKey : RequestKey := { method := "GET", endpoint := "/user/api/v1/users/me" }

/-! ## Helper lemmas: decimal digits round-trip -/

theorem digitVal_digitChar (d : Nat) (h : d < 10) :
    digitVal (digitChar d) = d % 10 := by
  unfold digitChar
  interval_cases d <;> rfl

theorem isDigit_digitChar (d : Nat) (h : d < 10) :
    (digitChar d).isDigit = true := by
  unfold digitChar
  interval_cases d <;> rfl

theorem natDigitsRev_all_digit (n : Nat) :
    (natDigitsRev n).all Char.isDigit = true := by
  induction n using Nat.strong_induction_on with
  | _ n ih =>
    rw [natDigitsRev]
    split
    · rfl
    · rename_i h
      simp only [List.all_cons, Bool.and_eq_true]
      exact ⟨isDigit_digitChar _ (Nat.mod_lt _ (by norm_num)),
        ih (n / 10) (Nat.div_lt_self (Nat.pos_of_ne_zero h) (by norm_num))⟩

theorem natDigitsRev_ne_nil (n : Nat) (h : n ≠ 0) : natDigitsRev n ≠ [] := by
  rw [natDigitsRev]
  simp [h]

theorem foldl_natDigitsRev_reverse (n : Nat) : ∀ acc : Nat,
    ((natDigitsRev n).reverse).foldl (fun acc c => acc * 10 + digitVal c) acc
      = acc * 10 ^ (natDigitsRev n).length + n := by
  induction n using Nat.strong_induction_on with
  | _ n ih =>
    intro acc
    rw [natDigitsRev]
    split
    · rename_i h; subst h; simp
    · rename_i h
      rw [List.reverse_cons, List.foldl_append]
      rw [ih (n / 10) (Nat.div_lt_self (Nat.pos_of_ne_zero h) (by norm_num))]
      simp only [List.foldl_cons, List.foldl_nil, List.length_cons]
      rw [digitVal_digitChar _ (Nat.mod_lt _ (by norm_num))]
      rw [pow_succ]
      have := Nat.div_add_mod n 10
      ring_nf
      omega

theorem parseNatDigits_natToChars (n : Nat) :
    parseNatDigits (natToChars n) = some n := by
  unfold natToChars
  by_cases h : n = 0
  · subst h; rfl
  · simp only [h, if_false]
    unfold parseNatDigits
    rw [if_pos]
    · rw [foldl_natDigitsRev_reverse]
      simp
    · constructor
      · simp [natDigitsRev_ne_nil n h]
      · simpa using natDigitsRev_all_digit n

theorem natToChars_head_digit (n : Nat) :
    ∃ c rest, natToChars n = c :: rest ∧ c.isDigit = true := by
  unfold natToChars
  by_cases h : n = 0
  · exact ⟨'0', [], by simp [h], rfl⟩
  · simp only [h, if_false]
    obtain ⟨c, rest, hcr⟩ : ∃ c rest, (natDigitsRev n).reverse = c :: rest := by
      rcases hrev : (natDigitsRev n).reverse with _ | ⟨c, rest⟩
      · exact absurd (by simpa using congrArg List.reverse hrev)
          (natDigitsRev_ne_nil n h)
      · exact ⟨c, rest, rfl⟩
    refine ⟨c, rest, hcr, ?_⟩
    have hall : ((natDigitsRev n).reverse).all Char.isDigit = true := by
      simpa using natDigitsRev_all_digit n
    rw [hcr] at hall
    simp only [List.all_cons, Bool.and_eq_true] at hall
    exact hall.1

theorem fromisoformat_isoformat (t : Datetime) :
    Datetime.fromisoformat t.isoformat = some t := by
  by_cases h : t < 0
  · have hiso : t.isoformat = '-' :: natToChars t.natAbs := by
      unfold Datetime.isoformat; simp [h]
    rw [hiso]
    simp [Datetime.fromisoformat, parseNatDigits_natToChars]
    rw [abs_of_neg h, neg_neg]
  · obtain ⟨c, rest, hcr, hdig⟩ := natToChars_head_digit t.natAbs
    have hiso : t.isoformat = c :: rest := by
      unfold Datetime.isoformat; simp [h, hcr]
    have hne : ¬ c = '-' := fun he => absurd (he ▸ hdig) (by decide)
    rw [hiso]
    simp [Datetime.fromisoformat, hne, ← hcr, parseNatDigits_natToChars]
    exact not_lt.mp h

/-! ## Claim theorems -/

/-- C1: when a refresh cycle fails with a non-authentication exception,
the consecutive-failure counter is incremented by one; if the new count is
still below the ceiling (3) and a stored snapshot exists, the cycle
returns that cached snapshot unchanged; if the new count has reached the
ceiling, or no snapshot exists, the cycle raises a terminal
update failure. -/
theorem coordinator_transient_failure_policy (s : CoordState) (msg : String) :
    (asyncUpdateData s (.otherError msg)).1.consecutive_failures
        = s.consecutive_failures + 1
    ∧ (∀ last, s.consecutive_failures + 1 < MAX_CONSECUTIVE_FAILURES →
        s.last_data = some last →
        (asyncUpdateData s (.otherError msg)).2 = .ok last)
    ∧ (s.consecutive_failures + 1 ≥ MAX_CONSECUTIVE_FAILURES →
        (asyncUpdateData s (.otherError msg)).2
          = .error ("Error communicating with API: " ++ msg))
    ∧ (s.last_data = none →
        (asyncUpdateData s (.otherError msg)).2
          = .error ("Error communicating with API: " ++ msg)) := by
  refine ⟨?_, ?_, ?_, ?_⟩
  · simp only [asyncUpdateData]
    split
    · rfl
    · split <;> rfl
  · intro last hlt hlast
    simp [asyncUpdateData, Nat.not_le.mpr hlt, hlast]
  · intro hge
    simp [asyncUpdateData, hge]
  · intro hnone
    simp only [asyncUpdateData, hnone]
    split <;> rfl

/-- C1 witness: with a populated cache and prior count 0 a transient
failure returns the cached snapshot; at prior count 2 (reaching the
ceiling) or with no cache it raises. -/
theorem coordinator_transient_failure_policy_witness :
    (asyncUpdateData ⟨0, some sampleData⟩ (.otherError "boom")).2 = .ok sampleData
    ∧ (asyncUpdateData ⟨2, some sampleData⟩ (.otherError "boom")).2
        = .error ("Error communicating with API: " ++ "boom")
    ∧ (asyncUpdateData ⟨0, none⟩ (.otherError "boom")).2
        = .error ("Error communicating with API: " ++ "boom") :=
  ⟨(coordinator_transient_failure_policy ⟨0, some sampleData⟩ "boom").2.1
      sampleData (by decide) rfl,
    (coordinator_transient_failure_policy ⟨2, some sampleData⟩ "boom").2.2.1
      (by decide),
    (coordinator_transient_failure_policy ⟨0, none⟩ "boom").2.2.2 rfl⟩

/-- C2: an authentication-kind error during the fetch sets the
consecutive-failure counter to the ceiling (3) and raises a terminal
update failure immediately, for every prior state — in particular the
cached snapshot is never returned. -/
theorem coordinator_auth_failure_immediate (s : CoordState) (msg : String) :
    (asyncUpdateData s (.authError msg)).1.consecutive_failures
        = MAX_CONSECUTIVE_FAILURES
    ∧ (asyncUpdateData s (.authError msg)).2
        = .error ("Authentication error: " ++ msg) :=
  ⟨rfl, rfl⟩

/-- C8: a refresh cycle whose pairings fetch succeeds with an empty list
is a success: the failure counter resets to 0, an empty snapshot is
stored and returned, and nothing is raised. -/
theorem coordinator_empty_pairings_success (s : CoordState)
    (getDevice : String → Option DeviceInfo)
    (getServices : String → List String) :
    asyncUpdateData s (.fetched [] getDevice getServices)
      = (⟨0, some ⟨[]⟩⟩, .ok ⟨[]⟩) := rfl

/-- C4: a token is expired exactly when the current time has reached
`created_at + expires_in` seconds minus the 300-second safety margin. -/
theorem tokendata_is_expired_iff (t : TokenData) (now : Datetime) :
    t.is_expired now = true ↔
      now ≥ t.created_at + t.expires_in * MICROS_PER_SECOND
        - 300 * MICROS_PER_SECOND := by
  unfold TokenData.is_expired TokenData.expires_at
  rw [decide_eq_true_iff]
  constructor <;> intro hle <;> [skip; skip] <;>
    simp only [MICROS_PER_SECOND, ge_iff_le] at * <;> linarith

/-- C4 witness: a token issued at time 0 with zero lifetime is expired
at time 0 (which is past `0 + 0 - 300s`). -/
theorem tokendata_is_expired_iff_witness : tokenA.is_expired 0 = true :=
  (tokendata_is_expired_iff tokenA 0).mpr (by decide)

/-- C5: storing a token with `to_dict` and restoring it with
`from_stored_dict` reproduces the token exactly — in particular the
ISO-serialized `created_at` timestamp round-trips without loss. -/
theorem tokendata_roundtrip (t : TokenData) (now : Datetime) :
    TokenData.from_stored_dict t.to_dict now = t := by
  cases t with
  | mk access_token refresh_token token_type expires_in created_at =>
    simp [TokenData.from_stored_dict, TokenData.to_dict,
      fromisoformat_isoformat]

/-- With `retry_on_auth_error = false`, `_request` consults only the
current attempt: environments agreeing there agree on the result. -/
theorem request_congr_noretry (env env' : ClientEnv) (key : RequestKey)
    (attempt : Nat)
    (he : env'.ensure_valid_token attempt = env.ensure_valid_token attempt)
    (hr : env'.respond key attempt = env.respond key attempt) :
    FermaxApiClient.request env' key false attempt
      = FermaxApiClient.request env key false attempt := by
  conv_lhs => rw [FermaxApiClient.request]
  conv_rhs => rw [FermaxApiClient.request]
  rw [he, hr]
  cases env.ensure_valid_token attempt with
  | error m => rfl
  | ok u =>
    cases u
    cases env.respond key attempt with
    | error m => rfl
    | ok resp =>
      dsimp only
      have hcond : ¬ (resp.status = 401 ∧ false = true) := by simp
      rw [dif_neg hcond, dif_neg hcond]

/-- With `retry_on_auth_error = true`, `_request` consults only the
current attempt and the one retry after it. -/
theorem request_congr_retry (env env' : ClientEnv) (key : RequestKey)
    (attempt : Nat)
    (he0 : env'.ensure_valid_token attempt = env.ensure_valid_token attempt)
    (he1 : env'.ensure_valid_token (attempt + 1)
      = env.ensure_valid_token (attempt + 1))
    (hrf : env'.refresh_token = env.refresh_token)
    (hr0 : env'.respond key attempt = env.respond key attempt)
    (hr1 : env'.respond key (attempt + 1) = env.respond key (attempt + 1)) :
    FermaxApiClient.request env' key true attempt
      = FermaxApiClient.request env key true attempt := by
  conv_lhs => rw [FermaxApiClient.request]
  conv_rhs => rw [FermaxApiClient.request]
  rw [he0, hr0, hrf]
  cases env.ensure_valid_token attempt with
  | error m => rfl
  | ok u =>
    cases u
    cases env.respond key attempt with
    | error m => rfl
    | ok resp =>
      dsimp only
      by_cases hc : resp.status = 401
      · rw [dif_pos ⟨hc, rfl⟩, dif_pos ⟨hc, rfl⟩]
        cases env.refresh_token with
        | error m => rfl
        | ok u => cases u; exact request_congr_noretry env env' key _ he1 hr1
      · have hcond : ¬ (resp.status = 401 ∧ true = true) := by simp [hc]
        rw [dif_neg hcond, dif_neg hcond]

/-- C3: a gateway request retries at most once on 401.  On a
first-attempt 401 it refreshes the token and reissues the identical
request exactly once with `retry_on_auth_error = false`; a 401 on that
retried attempt is surfaced as a final `FermaxApiError`; and the outcome
never depends on any attempt beyond the first two. -/
theorem client_request_single_retry_on_401
    (env : ClientEnv) (key : RequestKey) (resp0 : HttpResponse)
    (h0 : env.ensure_valid_token 0 = .ok ())
    (hr0 : env.respond key 0 = .ok resp0)
    (h401 : resp0.status = 401)
    (hrefresh : env.refresh_token = .ok ()) :
    FermaxApiClient.request env key true 0
        = FermaxApiClient.request env key false 1
    ∧ (∀ resp1, env.ensure_valid_token 1 = .ok () →
        env.respond key 1 = .ok resp1 → resp1.status = 401 →
        FermaxApiClient.request env key true 0
          = .error (.apiError
              ("API error " ++ toString resp1.status ++ ": "
                ++ resp1.text_body)))
    ∧ (∀ env' : ClientEnv,
        env'.ensure_valid_token 0 = env.ensure_valid_token 0 →
        env'.ensure_valid_token 1 = env.ensure_valid_token 1 →
        env'.refresh_token = env.refresh_token →
        env'.respond key 0 = env.respond key 0 →
        env'.respond key 1 = env.respond key 1 →
        FermaxApiClient.request env' key true 0
          = FermaxApiClient.request env key true 0) := by
  have hmain : FermaxApiClient.request env key true 0
      = FermaxApiClient.request env key false 1 := by
    conv_lhs => rw [FermaxApiClient.request]
    rw [h0, hr0]
    dsimp only
    rw [dif_pos ⟨h401, rfl⟩, hrefresh]
  refine ⟨hmain, ?_, ?_⟩
  · intro resp1 he1 hr1 h401b
    rw [hmain]
    conv_lhs => rw [FermaxApiClient.request]
    rw [he1, hr1]
    dsimp only
    have hcond : ¬ (resp1.status = 401 ∧ false = true) := by simp
    rw [dif_neg hcond]
    simp [h401b]
  · intro env' he0 he1 hrf hrsp0 hrsp1
    exact request_congr_retry env env' key 0 he0 he1 hrf hrsp0 hrsp1

/-- C3 witness: against a server answering 401 on both attempts (with a
successful token refresh in between), the request surfaces a final
`FermaxApiError` for the retried attempt's 401. -/
theorem client_request_single_retry_on_401_witness :
    FermaxApiClient.request env401 sampleKey true 0
      = .error (.apiError "API error 401: unauthorized") := by
  have h := (client_request_single_retry_on_401 env401 sampleKey
      (okResponse 401 "unauthorized") rfl rfl rfl rfl).2.1
      (okResponse 401 "unauthorized") rfl rfl rfl
  rw [h]
  rfl

/-- C6 (amended): a 409 response makes the request raise the plain
generic `FermaxApiError` (message "Resource conflict (409)"); the source
defines no subclass of `FermaxApiError` at all, hence no distinct
`ConflictError` kind. -/
theorem client_request_409_generic_api_error
    (env : ClientEnv) (key : RequestKey) (resp : HttpResponse)
    (attempt : Nat) (b : Bool)
    (h0 : env.ensure_valid_token attempt = .ok ())
    (hr : env.respond key attempt = .ok resp)
    (h409 : resp.status = 409) :
    FermaxApiClient.request env key b attempt
        = .error (.apiError "Resource conflict (409)")
    ∧ raisedClassOf (FermaxApiClient.request env key b attempt)
        = some .fermaxApiError
    ∧ ∀ c : ExceptionClass,
        ExceptionClass.fermaxApiError ∉ c.strictAncestors := by
  have hreq : FermaxApiClient.request env key b attempt
      = .error (.apiError "Resource conflict (409)") := by
    conv_lhs => rw [FermaxApiClient.request]
    rw [h0, hr]
    dsimp only
    have hcond : ¬ (resp.status = 401 ∧ b = true) := by
      rintro ⟨hc, -⟩; rw [h409] at hc; exact absurd hc (by decide)
    rw [dif_neg hcond]
    simp [h409]
  refine ⟨hreq, by rw [hreq]; rfl, ?_⟩
  intro c
  cases c <;> decide

/-- C6 witness: concrete 409 environment exercising the amended claim. -/
theorem client_request_409_generic_api_error_witness :
    FermaxApiClient.request env409 sampleKey true 0
      = .error (.apiError "Resource conflict (409)") :=
  (client_request_409_generic_api_error env409 sampleKey
    (okResponse 409 "conflict") 0 true rfl rfl rfl).1

/-- C6 counterexample: on a concrete 409 response the raised error's
class is exactly the generic `FermaxApiError` — there is no error class
that is both distinct from `FermaxApiError` and one of its subclasses, so
the request does not fail with a distinct `ConflictError` kind. -/
theorem client_request_409_conflict_counterexample :
    raisedClassOf (FermaxApiClient.request env409 sampleKey true 0)
        = some ExceptionClass.fermaxApiError
    ∧ ¬ ∃ c : ExceptionClass,
        raisedClassOf (FermaxApiClient.request env409 sampleKey true 0)
            = some c
        ∧ c ≠ ExceptionClass.fermaxApiError
        ∧ ExceptionClass.fermaxApiError ∈ c.strictAncestors := by
  have hreq : FermaxApiClient.request env409 sampleKey true 0
      = .error (.apiError "Resource conflict (409)") := by
    conv_lhs => rw [FermaxApiClient.request]
    have hcond : ¬ ((okResponse 409 "conflict").status = 401 ∧ true = true) := by
      rintro ⟨hc, -⟩; exact absurd hc (by decide)
    rw [show env409.ensure_valid_token 0 = .ok () from rfl,
      show env409.respond sampleKey 0 = .ok (okResponse 409 "conflict") from rfl]
    dsimp only
    rw [dif_neg hcond]
    rfl
  refine ⟨by rw [hreq]; rfl, ?_⟩
  rintro ⟨c, hc1, hc2, -⟩
  rw [hreq] at hc1
  simp only [raisedClassOf, ReqError.raisedClass, Option.some.injEq] at hc1
  exact hc2 hc1.symm

/-- C7: `open_door`, `delete_call_records` and `register_app_token` each
catch a `FermaxApiError` raised by the underlying request at their own
boundary and return `False` instead of propagating it. -/
theorem client_mutations_degrade_to_false
    (env : ClientEnv) (device_id : String) (door_id : DoorId)
    (registry_ids : List String) (fcm_token : String)
    (active : Bool) (device_model locale : String) :
    (∀ msg, FermaxApiClient.request env (openDoorKey device_id door_id) true 0
        = .error (.apiError msg) →
      FermaxApiClient.open_door env device_id door_id = .ok false)
    ∧ (∀ msg, FermaxApiClient.request env
          (deleteCallRecordsKey registry_ids fcm_token) true 0
        = .error (.apiError msg) →
      FermaxApiClient.delete_call_records env registry_ids fcm_token
        = .ok (.bool false))
    ∧ (∀ msg, FermaxApiClient.request env
          (registerAppTokenKey fcm_token active device_model locale) true 0
        = .error (.apiError msg) →
      FermaxApiClient.register_app_token env fcm_token active device_model
          locale = .ok false) := by
  refine ⟨?_, ?_, ?_⟩
  · intro msg h
    unfold FermaxApiClient.open_door
    rw [h]
  · intro msg h
    unfold FermaxApiClient.delete_call_records
    rw [h]
  · intro msg h
    unfold FermaxApiClient.register_app_token
    rw [h]

/-- C7 witness: against a server answering 500, all three mutation calls
return `False` rather than raising. -/
theorem client_mutations_degrade_to_false_witness :
    FermaxApiClient.open_door env500 "dev1" sampleDoorId = .ok false
    ∧ FermaxApiClient.delete_call_records env500 ["r1"] "fcm"
        = .ok (.bool false)
    ∧ FermaxApiClient.register_app_token env500 "fcm" true "HomeAssistant"
        "en" = .ok false := by
  have h500 : ∀ key : RequestKey, FermaxApiClient.request env500 key true 0
      = .error (.apiError "API error 500: boom") := by
    intro key
    conv_lhs => rw [FermaxApiClient.request]
    have hcond : ¬ ((okResponse 500 "boom").status = 401 ∧ true = true) := by
      rintro ⟨hc, -⟩; exact absurd hc (by decide)
    rw [show env500.ensure_valid_token 0 = .ok () from rfl,
      show env500.respond key 0 = .ok (okResponse 500 "boom") from rfl]
    dsimp only
    rw [dif_neg hcond]
    rfl
  have h := client_mutations_degrade_to_false env500 "dev1" sampleDoorId
    ["r1"] "fcm" true "HomeAssistant" "en"
  exact ⟨h.1 _ (h500 _), h.2.1 _ (h500 _), h.2.2 _ (h500 _)⟩

/-- C9: for a device present in the coordinator data with device info,
the sensor exposes `min(100, raw_signal * 20)` as the signal-strength
percentage. -/
theorem sensor_signal_percentage
    (data : FermaxData) (device_id : String) (dd : DeviceData)
    (info : DeviceInfo)
    (hd : data.get_device device_id = some dd)
    (hi : dd.device_info = some info) :
    FermaxWirelessSignalSensor.native_value (some data) device_id
      = some (min 100 (info.wireless_signal * 20)) := by
  simp [FermaxWirelessSignalSensor.native_value, hd, hi,
    DeviceData.wireless_signal]

/-- C9 witness: raw signal 4 yields 80%, raw 5 yields 100% (clamped),
raw 0 yields 0%. -/
theorem sensor_signal_percentage_witness :
    FermaxWirelessSignalSensor.native_value (some (sampleDataWith 4)) "dev1"
        = some 80
    ∧ FermaxWirelessSignalSensor.native_value (some (sampleDataWith 5)) "dev1"
        = some 100
    ∧ FermaxWirelessSignalSensor.native_value (some (sampleDataWith 0)) "dev1"
        = some 0 := by
  refine ⟨?_, ?_, ?_⟩
  · rw [sensor_signal_percentage (sampleDataWith 4) "dev1"
      ⟨samplePairing, some (sampleDeviceInfoWith 4), []⟩
      (sampleDeviceInfoWith 4) rfl rfl]
    rfl
  · rw [sensor_signal_percentage (sampleDataWith 5) "dev1"
      ⟨samplePairing, some (sampleDeviceInfoWith 5), []⟩
      (sampleDeviceInfoWith 5) rfl rfl]
    rfl
  · rw [sensor_signal_percentage (sampleDataWith 0) "dev1"
      ⟨samplePairing, some (sampleDeviceInfoWith 0), []⟩
      (sampleDeviceInfoWith 0) rfl rfl]
    rfl

/-- C10: the `Pairing` class defines no attribute `all_doors` (only
`all_visible_doors`), so the lock platform's door enumeration
(`_async_update_entities`) raises `AttributeError` for any non-empty
coordinator data instead of producing lock entities, and the per-entity
update's door search (`_handle_coordinator_update`) always raises as
well. -/
theorem lock_all_doors_attribute_error :
    (∀ p : Pairing, p.getattr "all_doors" = none)
    ∧ (∀ p : Pairing,
        p.getattr "all_visible_doors" = some (.doors p.all_visible_doors))
    ∧ (∀ devices : List (String × DeviceData), devices ≠ [] →
        lockCollectDoors devices = .error attributeErrorAllDoors)
    ∧ (∀ (dd : DeviceData) (sd : AccessDoor),
        lockFindTargetDoor dd sd = .error attributeErrorAllDoors) := by
  have hnone : ∀ p : Pairing, p.getattr "all_doors" = none := fun p => rfl
  refine ⟨hnone, fun p => rfl, ?_, ?_⟩
  · intro devices hne
    match devices with
    | [] => exact absurd rfl hne
    | (device_id, dd) :: rest =>
        simp [lockCollectDoors, hnone]
  · intro dd sd
    simp [lockFindTargetDoor, hnone]

/-- C10 witness: a concrete one-device coordinator snapshot makes the
lock platform's enumeration and door search raise `AttributeError`. -/
theorem lock_all_doors_attribute_error_witness :
    lockCollectDoors [("dev1", sampleDeviceData)]
        = .error attributeErrorAllDoors
    ∧ lockFindTargetDoor sampleDeviceData sampleDoor
        = .error attributeErrorAllDoors :=
  ⟨lock_all_doors_attribute_error.2.2.1 [("dev1", sampleDeviceData)]
      (by simp),
    lock_all_doors_attribute_error.2.2.2 sampleDeviceData sampleDoor⟩

end Fermax
